import Mathlib

/-!
Verification of the `ClientFactory` module of the SMARTerFHIR library
(src/Client/ClientFactory.ts), as a shallow embedding in Lean 4.

External effects (browser URL, environment variables, the fhirclient
library's `FHIR.oauth2.ready()`, the network `fetch`, and the base64/JSON
payload decoding inside `jwt-decode`) are modelled as fields of an explicit
`Env` record; network calls are additionally recorded in a trace of
`FetchRequest` values so that claims about the number of requests issued
can be stated.
-/

deriving instance DecidableEq for Except

/-- The `EMR` enum from `Launcher/SmartLaunchHandler` (re-exported and used by
`ClientFactory`): the supported vendors plus `NONE`. -/
inductive EMR where
  | EPIC
  | CERNER
  | SMART
  | NONE
deriving DecidableEq, Repr

/-- The `LAUNCH` enum of `ClientFactory.ts` (lines 9-13). -/
inductive LAUNCH where
  | EMR
  | STANDALONE
  | BACKEND
deriving DecidableEq, Repr

/-- The `JWT` type of `ClientFactory.ts` (lines 20-23): a `client_id` string
and an optional `"epic.eci"` claim.  `epicEci = some v` models the key
`"epic.eci"` being present (the `"epic.eci" in clientOrToken` test). -/
structure JWT where
  client_id : String
  epicEci : Option String
deriving DecidableEq, Repr

/-- The token response JSON parsed from the OAuth token endpoint
(`FhirClientTypes.TokenResponse`): the `access_token` field (absent or a
string, possibly empty, matching the JS truthiness test `!access_token`)
plus the remaining fields, kept opaque. -/
structure TokenResponse where
  access_token : Option String
  otherFields : List (String × String)
deriving DecidableEq, Repr

/-- The state of a `fhirclient` `SubClient`: its `serverUrl`, and the
`clientId` / `tokenResponse` fields that `buildStandaloneFhirClient`
assigns. -/
structure ClientState where
  serverUrl : String
  clientId : Option String
  tokenResponse : Option TokenResponse
deriving DecidableEq, Repr

/-- A `fhirclient` `SubClient` (`Client` of the fhirclient library), reduced
to the parts `ClientFactory` reads or writes: its `state`. -/
structure SubClient where
  state : ClientState
deriving DecidableEq, Repr

/-- The `EMR_ENDPOINTS` record from `Client/BaseClient`: the OAuth token
endpoint and the FHIR R4 base, as URL strings. -/
structure EMR_ENDPOINTS where
  token : String
  r4 : String
deriving DecidableEq, Repr

/-- Errors thrown by the embedded code: `InvalidTokenError` (from
`jwt-decode`) and plain `Error`, each carrying its message. -/
inductive Err where
  | invalidToken (msg : String)
  | error (msg : String)
deriving DecidableEq, Repr

/-- One outgoing network request, as built by `getAccessToken`
(lines 170-190): the token endpoint URL, HTTP method, and the
`URLSearchParams` body fields. -/
structure FetchRequest where
  url : String
  method : String
  grant_type : String
  code : String
  redirect_uri : String
  client_id : String
deriving DecidableEq, Repr

/-- The external world `ClientFactory` interacts with:
`browserCode` is `new URLSearchParams(window.location.search).get("code")`;
`windowOrigin` is `window.location.origin`;
`envClientId` and `envEmrType` are `process.env.REACT_APP_EMR_CLIENT_ID`
and `process.env.REACT_APP_EMR_TYPE`;
`oauth2Ready` is the result of `FHIR.oauth2.ready()`;
`fetchJson` is the network: the parsed JSON body answered to a request;
`decodeSegment` is the base64url+JSON decoding that `jwt_decode` applies
to one dot-separated segment of a token (`none` models a decoding
failure, which `jwt-decode` reports as an `InvalidTokenError`). -/
structure Env where
  browserCode : Option String
  windowOrigin : String
  envClientId : Option String
  envEmrType : Option String
  oauth2Ready : Except Err SubClient
  fetchJson : FetchRequest → TokenResponse
  decodeSegment : String → Option JWT

/-- The result record of `getRequiredTokenParameters` (line 129):
`{ endpoints, clientId }`. -/
structure TokenParams where
  endpoints : EMR_ENDPOINTS
  clientId : String
deriving DecidableEq, Repr

/-- The vendor-specific clients `createEMRClient` can construct, each
wrapping the default FHIR client it was built from (`new EpicClient(c)`,
`new CernerClient(c)`). -/
inductive EMRClient where
  | epic (c : SubClient)
  | cerner (c : SubClient)
deriving DecidableEq, Repr

/-- The runtime argument of the overloaded `getEmrEndpoints`
(lines 105-107): either a string that was cast `as EMR` (the
`REACT_APP_EMR_TYPE` environment variable), or a decoded `JWT` object. -/
inductive EmrObj where
  | emrStr (s : String)
  | jwt (j : JWT)
deriving DecidableEq, Repr

/-- JS string truthiness for an optional string: `undefined` and `""` are
falsy. -/
def truthyStr : Option String → Bool
  | Option.none => false
  | some s => s != ""

/-- `matchAt pat hay`: `pat` is a prefix of `hay` (character by character). -/
def matchAt : List Char → List Char → Bool
  | [], _ => true
  | _ :: _, [] => false
  | p :: ps, h :: hs => p == h && matchAt ps hs

/-- Helper for `strIncludes`: does `pat` occur in `hay` at some position? -/
def listIncludes (hay pat : List Char) : Bool :=
  match hay with
  | [] => pat.isEmpty
  | _ :: t => matchAt pat hay || listIncludes t pat

/-- JS `String.prototype.includes`: substring containment. -/
def strIncludes (s pat : String) : Bool :=
  listIncludes s.toList pat.toList

/-- `Modelled from the spec:` the string values of the `EMR` enum and the
`instanceOfEmr` membership test live in `Launcher/SmartLaunchHandler`,
which is not under `src/`; the spec names the vendors Epic, Cerner and
generic SMART Health IT.  `emrFromString s = some e` models
`instanceOfEmr(s)` succeeding with value `e`; any other string cast
`as EMR` fails the `instanceOfEmr` test. -/
def emrFromString : String → Option EMR
  | "epic" => some EMR.EPIC
  | "cerner" => some EMR.CERNER
  | "smarthealthit" => some EMR.SMART
  | "none" => some EMR.NONE
  | _ => Option.none

/-- `Modelled from the spec:` `EpicClient.getEndpoints()` is defined in
`Client/EpicClient`, which is not under `src/`; the spec only says it
yields Epic's fixed OAuth/FHIR endpoints, so representative constant URLs
stand in for them. -/
def epicEndpoints : EMR_ENDPOINTS :=
  { token := "https://fhir.epic.com/oauth2/token"
    r4 := "https://fhir.epic.com/api/FHIR/R4" }

/-- `Modelled from the spec:` `CernerClient.getEndpoints()` is defined in
`Client/CernerClient`, which is not under `src/`; representative constant
URLs stand in for Cerner's fixed endpoints. -/
def cernerEndpoints : EMR_ENDPOINTS :=
  { token := "https://fhir.cerner.com/oauth2/token"
    r4 := "https://fhir.cerner.com/r4" }

/-- The `SubClient` branch of `ClientFactory.getEMRType` (lines 41-51):
substring tests on `state.serverUrl`, in order `cerner`, `smarthealthit`,
`epic`, else `NONE`. -/
def getEMRTypeClient (client : SubClient) : EMR :=
  if strIncludes client.state.serverUrl "cerner" then EMR.CERNER
  else if strIncludes client.state.serverUrl "smarthealthit" then EMR.SMART
  else if strIncludes client.state.serverUrl "epic" then EMR.EPIC
  else EMR.NONE

/-- The `JWT` branch of `ClientFactory.getEMRType` (lines 52-57):
`EPIC` exactly when the `"epic.eci"` key is present, else `NONE`. -/
def getEMRTypeJWT (token : JWT) : EMR :=
  if token.epicEci.isSome then EMR.EPIC else EMR.NONE

/-- `ClientFactory.getEmrTypeFromObject` (lines 120-124): a `JWT` object
passes `instanceOfJWT` (its declared type makes `client_id` present); a
string cast `as EMR` passes `instanceOfEmr` exactly when it is one of the
enum values; otherwise `Error('Invalid object type.')`. -/
def getEmrTypeFromObject : EmrObj → Except Err EMR
  | EmrObj.jwt j => Except.ok (getEMRTypeJWT j)
  | EmrObj.emrStr s =>
    match emrFromString s with
    | some e => Except.ok e
    | Option.none => Except.error (Err.error "Invalid object type.")

/-- `ClientFactory.getEmrEndpoints` (lines 105-118): dispatch on the EMR
type obtained from the object; `SMART`, `NONE` and the default all throw
`Error('EMR type not defined.')`. -/
def getEmrEndpoints (o : EmrObj) : Except Err EMR_ENDPOINTS :=
  match getEmrTypeFromObject o with
  | Except.error e => Except.error e
  | Except.ok EMR.EPIC => Except.ok epicEndpoints
  | Except.ok EMR.CERNER => Except.ok cernerEndpoints
  | Except.ok _ => Except.error (Err.error "EMR type not defined.")

/-- Prepend a character to the first segment of a split result. -/
def consHead (c : Char) : List (List Char) → List (List Char)
  | [] => [[c]]
  | h :: t => (c :: h) :: t

/-- JS `token.split('.')` on the character list of a token: split at every
dot, keeping empty segments, never returning an empty list. -/
def splitOnDot : List Char → List (List Char)
  | [] => [[]]
  | c :: rest =>
    if c = '.' then [] :: splitOnDot rest
    else consHead c (splitOnDot rest)

/-- `codeToJwt` (lines 197-199), refining `jwt_decode<JWT>(code)` with its
default `header: false` option: take segment 1 of the dot-split token and
base64url+JSON decode it; a missing segment or a failed decode is an
`InvalidTokenError`. -/
def codeToJwt (env : Env) (code : String) : Except Err JWT :=
  match (splitOnDot code.toList).get? 1 with
  | Option.none => Except.error (Err.invalidToken "Invalid token specified")
  | some seg =>
    match env.decodeSegment (String.mk seg) with
    | Option.none => Except.error (Err.invalidToken "Invalid token specified")
    | some j => Except.ok j

/-- `getCodeFromBrowserUrl` (lines 205-210): the `code` query parameter of
the browser URL, or `Error("Could not find any JWT token.")` when the
parameter is absent. -/
def getCodeFromBrowserUrl (env : Env) : Except Err String :=
  match env.browserCode with
  | Option.none => Except.error (Err.error "Could not find any JWT token.")
  | some c => Except.ok c

/-- `getAccessToken` (lines 170-190): one POST `fetch` to the token
endpoint with the authorization-code grant body; the parsed JSON is
returned when its `access_token` is truthy, otherwise
`Error("Could not find any access token from the oauth endpoint's response")`.
The single request issued is returned as the trace. -/
def getAccessToken (env : Env) (tokenEndpoint : String) (code : String)
    (clientId : String) : Except Err TokenResponse × List FetchRequest :=
  let req : FetchRequest :=
    { url := tokenEndpoint
      method := "POST"
      grant_type := "authorization_code"
      code := code
      redirect_uri := env.windowOrigin
      client_id := clientId }
  let tokenResponse := env.fetchJson req
  if truthyStr tokenResponse.access_token then
    (Except.ok tokenResponse, [req])
  else
    (Except.error
      (Err.error "Could not find any access token from the oauth endpoint's response"),
     [req])

/-- `ClientFactory.getRequiredTokenParameters` (lines 139-156): try to
decode the code and derive endpoints from the decoded JWT; on any failure,
fall back to `REACT_APP_EMR_CLIENT_ID` / `REACT_APP_EMR_TYPE` when both
are truthy, otherwise rethrow (replacing an `InvalidTokenError` by one
asking for explicit `client_id` and `emr_type`). -/
def getRequiredTokenParameters (env : Env) (code : String) :
    Except Err TokenParams :=
  let tryBlock : Except Err TokenParams :=
    match codeToJwt env code with
    | Except.error e => Except.error e
    | Except.ok decodedJwt =>
      match getEmrEndpoints (EmrObj.jwt decodedJwt) with
      | Except.error e => Except.error e
      | Except.ok eps =>
        Except.ok { endpoints := eps, clientId := decodedJwt.client_id }
  match tryBlock with
  | Except.ok r => Except.ok r
  | Except.error reason =>
    if !(truthyStr env.envEmrType && truthyStr env.envClientId) then
      match reason with
      | Err.invalidToken _ =>
        Except.error (Err.invalidToken
          "Cannot decode the Code for the EMR type. You must provide the client_id and emr_type explicitly")
      | e => Except.error e
    else
      if !truthyStr env.envEmrType then
        Except.error (Err.error
          "EMR type cannot be inferred. You must provide the emr_type explicitly")
      else
        match getEmrEndpoints (EmrObj.emrStr (env.envEmrType.getD "")) with
        | Except.error e => Except.error e
        | Except.ok eps =>
          Except.ok { endpoints := eps, clientId := env.envClientId.getD "" }

/-- `ClientFactory.buildStandaloneFhirClient` (lines 127-137): read the
code from the browser URL, derive endpoints and client id, exchange the
code at the token endpoint, then build a FHIR client at the R4 base with
`clientId` and `tokenResponse` filled in.  The second component is the
trace of network requests issued. -/
def buildStandaloneFhirClient (env : Env) :
    Except Err SubClient × List FetchRequest :=
  match getCodeFromBrowserUrl env with
  | Except.error e => (Except.error e, [])
  | Except.ok code =>
    match getRequiredTokenParameters env code with
    | Except.error e => (Except.error e, [])
    | Except.ok p =>
      match getAccessToken env p.endpoints.token code p.clientId with
      | (Except.error e, tr) => (Except.error e, tr)
      | (Except.ok tokenResponse, tr) =>
        (Except.ok
          { state :=
            { serverUrl := p.endpoints.r4
              clientId := some p.clientId
              tokenResponse := some tokenResponse } },
         tr)

/-- `ClientFactory.createDefaultFhirClient` (lines 88-97): `LAUNCH.EMR`
uses the host-provided `FHIR.oauth2.ready()` client; `LAUNCH.STANDALONE`
builds the standalone client; the default branch throws
`Error("Unsupported provider for standalone launch")`. -/
def createDefaultFhirClient (launchType : LAUNCH) (env : Env) :
    Except Err SubClient × List FetchRequest :=
  match launchType with
  | LAUNCH.EMR => (env.oauth2Ready, [])
  | LAUNCH.STANDALONE => buildStandaloneFhirClient env
  | _ =>
    (Except.error (Err.error "Unsupported provider for standalone launch"), [])

/-- `ClientFactory.createEMRClient` (lines 67-80): build the default FHIR
client, detect the EMR type from its server URL, and wrap it in the
vendor client; `SMART`, `NONE` and the default all throw
`Error("Unsupported provider for EMR Client creation")`. -/
def createEMRClient (launchType : LAUNCH) (env : Env) :
    Except Err EMRClient × List FetchRequest :=
  match createDefaultFhirClient launchType env with
  | (Except.error e, tr) => (Except.error e, tr)
  | (Except.ok c, tr) =>
    match getEMRTypeClient c with
    | EMR.EPIC => (Except.ok (EMRClient.epic c), tr)
    | EMR.CERNER => (Except.ok (EMRClient.cerner c), tr)
    | _ =>
      (Except.error (Err.error "Unsupported provider for EMR Client creation"),
       tr)

/-- The `ClientFactory` class itself (line 33): it declares no fields; its
methods are the operations above. -/
structure ClientFactory where
deriving DecidableEq, Repr

/-- One call to a `ClientFactory` operation, with its arguments and the
external environment at call time. -/
inductive FactoryCall where
  | createEMRClient (launchType : LAUNCH) (env : Env)
  | createDefaultFhirClient (launchType : LAUNCH) (env : Env)
  | getEmrEndpoints (o : EmrObj)
  | getRequiredTokenParameters (env : Env) (code : String)

/-- The result of one `ClientFactory` call. -/
inductive FactoryResult where
  | emrClient (r : Except Err EMRClient × List FetchRequest)
  | fhirClient (r : Except Err SubClient × List FetchRequest)
  | endpoints (r : Except Err EMR_ENDPOINTS)
  | tokenParams (r : Except Err TokenParams)

/-- Run one call on a factory instance, returning the result and the
factory afterwards (the methods assign no fields, so the instance is
returned unchanged). -/
def execCall (f : ClientFactory) : FactoryCall → FactoryResult × ClientFactory
  | FactoryCall.createEMRClient lt env =>
    (FactoryResult.emrClient (createEMRClient lt env), f)
  | FactoryCall.createDefaultFhirClient lt env =>
    (FactoryResult.fhirClient (createDefaultFhirClient lt env), f)
  | FactoryCall.getEmrEndpoints o =>
    (FactoryResult.endpoints (getEmrEndpoints o), f)
  | FactoryCall.getRequiredTokenParameters env code =>
    (FactoryResult.tokenParams (getRequiredTokenParameters env code), f)

/-- Run a sequence of calls on one factory instance, threading the
instance through, and collect the results. -/
def execCalls (f : ClientFactory) : List FactoryCall → List FactoryResult
  | [] => []
  | c :: rest => (execCall f c).1 :: execCalls (execCall f c).2 rest

/-- The host-provided client of the demonstration environment. -/
def epicReadyClient : SubClient :=
  { state :=
    { serverUrl := "https://fhir.epic.example/api/FHIR/R4"
      clientId := Option.none
      tokenResponse := Option.none } }

/-- A concrete payload decoder for demonstration environments: recognises
two payload segments. -/
def demoDecode : String → Option JWT := fun seg =>
  if seg = "epicseg" then some { client_id := "cid-epic", epicEci := some "eci-value" }
  else if seg = "plainseg" then some { client_id := "cid-plain", epicEci := Option.none }
  else Option.none

/-- A concrete network for demonstration environments: every token request
is answered with a fixed token response. -/
def demoFetch : FetchRequest → TokenResponse := fun _ =>
  { access_token := some "tok123", otherFields := [("token_type", "Bearer")] }

/-- A concrete demonstration environment. -/
def demoEnv : Env :=
  { browserCode := some "hh.epicseg.sig"
    windowOrigin := "https://app.example.org"
    envClientId := some "env-cid"
    envEmrType := some "cerner"
    oauth2Ready := Except.ok epicReadyClient
    fetchJson := demoFetch
    decodeSegment := demoDecode }

/-- A demonstration environment whose host-provided client points at a
SMART Health IT server. -/
def smartEnv : Env :=
  { demoEnv with
    oauth2Ready := Except.ok
      { state :=
        { serverUrl := "https://launch.smarthealthit.org/v/r4/fhir"
          clientId := Option.none
          tokenResponse := Option.none } } }

/-- A demonstration environment in which every payload decode fails. -/
def badDecodeEnv : Env :=
  { demoEnv with decodeSegment := fun _ => Option.none }

/-- A demonstration environment with no `code` query parameter in the
browser URL. -/
def noCodeEnv : Env :=
  { demoEnv with browserCode := Option.none }

lemma splitOnDot_append (h rest : List Char) (hh : '.' ∉ h) :
    splitOnDot (h ++ '.' :: rest) = h :: splitOnDot rest := by
  induction h with
  | nil => simp [splitOnDot]
  | cons c t ih =>
    have hc : c ≠ '.' := fun hEq => hh (hEq ▸ List.mem_cons_self c t)
    have ht : '.' ∉ t := fun hm => hh (List.mem_cons_of_mem c hm)
    calc splitOnDot ((c :: t) ++ '.' :: rest)
        = consHead c (splitOnDot (t ++ '.' :: rest)) := by
          simp [splitOnDot, hc]
      _ = consHead c (t :: splitOnDot rest) := by rw [ih ht]
      _ = (c :: t) :: splitOnDot rest := rfl

lemma splitOnDot_segment_one (h p s : List Char) (hh : '.' ∉ h)
    (hp : '.' ∉ p) :
    (splitOnDot (h ++ '.' :: (p ++ '.' :: s))).get? 1 = some p := by
  rw [splitOnDot_append h _ hh, splitOnDot_append p _ hp]
  rfl

lemma data_code_concat (h p s : String) :
    (h ++ "." ++ p ++ "." ++ s).data
      = h.data ++ '.' :: (p.data ++ '.' :: s.data) := by
  simp [String.data_append]

/-- C2: `getEMRType` decides the vendor by pure string/claim inspection.
On a `SubClient`, the serverUrl substring tests are applied in the order
`cerner`, `smarthealthit`, `epic`, with `NONE` otherwise; on a JWT, the
result is `EPIC` exactly when the token carries an `"epic.eci"` claim, and
`NONE` otherwise. -/
theorem C2_getEMRType_pure_inspection :
    (∀ c : SubClient,
      (strIncludes c.state.serverUrl "cerner" = true →
        getEMRTypeClient c = EMR.CERNER)
      ∧ (strIncludes c.state.serverUrl "cerner" = false →
         strIncludes c.state.serverUrl "smarthealthit" = true →
         getEMRTypeClient c = EMR.SMART)
      ∧ (strIncludes c.state.serverUrl "cerner" = false →
         strIncludes c.state.serverUrl "smarthealthit" = false →
         strIncludes c.state.serverUrl "epic" = true →
         getEMRTypeClient c = EMR.EPIC)
      ∧ (strIncludes c.state.serverUrl "cerner" = false →
         strIncludes c.state.serverUrl "smarthealthit" = false →
         strIncludes c.state.serverUrl "epic" = false →
         getEMRTypeClient c = EMR.NONE))
    ∧ (∀ j : JWT,
        (getEMRTypeJWT j = EMR.EPIC ↔ j.epicEci.isSome = true)
        ∧ (j.epicEci.isSome = false → getEMRTypeJWT j = EMR.NONE)) := by
  constructor
  · intro c
    refine ⟨fun h1 => ?_, fun h1 h2 => ?_, fun h1 h2 h3 => ?_,
            fun h1 h2 h3 => ?_⟩
    · simp [getEMRTypeClient, h1]
    · simp [getEMRTypeClient, h1, h2]
    · simp [getEMRTypeClient, h1, h2, h3]
    · simp [getEMRTypeClient, h1, h2, h3]
  · intro j
    refine ⟨?_, fun h => ?_⟩
    · cases hj : j.epicEci <;> simp [getEMRTypeJWT, hj]
    · simp [getEMRTypeJWT, h]

/-- Witness for C2 at concrete inputs: a Cerner server URL and an Epic
JWT. -/
theorem C2_getEMRType_pure_inspection_witness :
    getEMRTypeClient
      { state :=
        { serverUrl := "https://fhir.cerner.example/r4"
          clientId := Option.none
          tokenResponse := Option.none } } = EMR.CERNER
    ∧ getEMRTypeJWT { client_id := "cid", epicEci := some "eci" }
      = EMR.EPIC := by
  constructor
  · exact (C2_getEMRType_pure_inspection.1
      { state :=
        { serverUrl := "https://fhir.cerner.example/r4"
          clientId := Option.none
          tokenResponse := Option.none } }).1 (by decide)
  · exact ((C2_getEMRType_pure_inspection.2
      { client_id := "cid", epicEci := some "eci" }).1).mpr (by decide)

/-- C5: on a JWT input, `getEMRType` can only answer `EPIC` or `NONE`, so
the endpoint derivation from a decoded authorization code can only yield
Epic's endpoints or throw `Error('EMR type not defined.')`. -/
theorem C5_jwt_detection_epic_or_none (j : JWT) :
    (getEMRTypeJWT j = EMR.EPIC ∨ getEMRTypeJWT j = EMR.NONE)
    ∧ (getEmrEndpoints (EmrObj.jwt j) = Except.ok epicEndpoints
       ∨ getEmrEndpoints (EmrObj.jwt j)
         = Except.error (Err.error "EMR type not defined.")) := by
  cases hj : j.epicEci <;>
    simp [getEMRTypeJWT, getEmrEndpoints, getEmrTypeFromObject, hj]

/-- C6: vendor detection on a `SubClient` has the fixed precedence
`cerner`, then `smarthealthit`, then `epic`: a URL containing `cerner`
yields `CERNER` whatever else it contains, and a URL containing
`smarthealthit` but not `cerner` yields `SMART` even if it also contains
`epic`. -/
theorem C6_detection_precedence (c : SubClient) :
    (strIncludes c.state.serverUrl "cerner" = true →
      getEMRTypeClient c = EMR.CERNER)
    ∧ (strIncludes c.state.serverUrl "cerner" = false →
       strIncludes c.state.serverUrl "smarthealthit" = true →
       getEMRTypeClient c = EMR.SMART) := by
  refine ⟨fun h1 => ?_, fun h1 h2 => ?_⟩
  · simp [getEMRTypeClient, h1]
  · simp [getEMRTypeClient, h1, h2]

/-- Witness for C6 on URLs containing several vendor substrings at once:
one with all three (detected as Cerner), one with `smarthealthit` and
`epic` but no `cerner` (detected as SMART). -/
theorem C6_detection_precedence_witness :
    getEMRTypeClient
      { state :=
        { serverUrl := "https://cerner.epic.smarthealthit.example"
          clientId := Option.none
          tokenResponse := Option.none } } = EMR.CERNER
    ∧ getEMRTypeClient
      { state :=
        { serverUrl := "https://epic.smarthealthit.example"
          clientId := Option.none
          tokenResponse := Option.none } } = EMR.SMART := by
  constructor
  · exact (C6_detection_precedence
      { state :=
        { serverUrl := "https://cerner.epic.smarthealthit.example"
          clientId := Option.none
          tokenResponse := Option.none } }).1 (by decide)
  · exact (C6_detection_precedence
      { state :=
        { serverUrl := "https://epic.smarthealthit.example"
          clientId := Option.none
          tokenResponse := Option.none } }).2 (by decide) (by decide)

/-- Counterexample to C1 as stated: when the detected EMR type is SMART
(a host client on a smarthealthit server URL), `createEMRClient` does not
return a vendor-tailored client; it throws
`Error("Unsupported provider for EMR Client creation")`. -/
theorem C1_counterexample_smart_throws :
    getEMRTypeClient
      { state :=
        { serverUrl := "https://launch.smarthealthit.org/v/r4/fhir"
          clientId := Option.none
          tokenResponse := Option.none } } = EMR.SMART
    ∧ createEMRClient LAUNCH.EMR smartEnv
      = (Except.error
          (Err.error "Unsupported provider for EMR Client creation"),
         []) := by decide

/-- C1 (amended): once the default FHIR client of a completed launch is
available, `createEMRClient` wraps it in an `EpicClient` when the detected
type is `EPIC` and in a `CernerClient` when it is `CERNER`; when the
detected type is `SMART` it throws
`Error("Unsupported provider for EMR Client creation")` instead of
returning a client. -/
theorem C1_createEMRClient_vendor_dispatch (lt : LAUNCH) (env : Env)
    (c : SubClient) (tr : List FetchRequest)
    (hc : createDefaultFhirClient lt env = (Except.ok c, tr)) :
    (getEMRTypeClient c = EMR.EPIC →
      createEMRClient lt env = (Except.ok (EMRClient.epic c), tr))
    ∧ (getEMRTypeClient c = EMR.CERNER →
      createEMRClient lt env = (Except.ok (EMRClient.cerner c), tr))
    ∧ (getEMRTypeClient c = EMR.SMART →
      createEMRClient lt env
        = (Except.error
            (Err.error "Unsupported provider for EMR Client creation"),
           tr)) := by
  refine ⟨fun h => ?_, fun h => ?_, fun h => ?_⟩ <;>
    simp [createEMRClient, hc, h]

/-- Witness for the amended C1: in the demonstration environment the host
client points at an Epic server, and `createEMRClient` wraps it in an
`EpicClient`. -/
theorem C1_createEMRClient_vendor_dispatch_witness :
    createEMRClient LAUNCH.EMR demoEnv
      = (Except.ok (EMRClient.epic epicReadyClient), []) :=
  (C1_createEMRClient_vendor_dispatch LAUNCH.EMR demoEnv epicReadyClient []
    (by decide)).1 (by decide)

/-- C3: when the token decode fails, `getRequiredTokenParameters`
falls back to `REACT_APP_EMR_CLIENT_ID` / `REACT_APP_EMR_TYPE` and returns
the endpoints derived from that EMR type with that client id when both
are set; when either is missing it rethrows the failure, replacing an
`InvalidTokenError` by one asking for explicit `client_id` and
`emr_type`. -/
theorem C3_decode_failure_env_fallback (env : Env) (code : String) (e : Err)
    (hd : codeToJwt env code = Except.error e) :
    (∀ t cid, env.envEmrType = some t → t ≠ "" →
      env.envClientId = some cid → cid ≠ "" →
      getRequiredTokenParameters env code
        = (getEmrEndpoints (EmrObj.emrStr t)).map
            (fun eps => { endpoints := eps, clientId := cid }))
    ∧ (truthyStr env.envEmrType = false ∨ truthyStr env.envClientId = false →
       (∀ m, e = Err.invalidToken m →
          getRequiredTokenParameters env code
            = Except.error (Err.invalidToken
                "Cannot decode the Code for the EMR type. You must provide the client_id and emr_type explicitly"))
       ∧ (∀ m, e = Err.error m →
          getRequiredTokenParameters env code = Except.error e)) := by
  constructor
  · intro t cid ht htne hcid hcidne
    simp only [getRequiredTokenParameters, hd, ht, hcid]
    have h1 : truthyStr (some t) = true := by simp [truthyStr, htne]
    have h2 : truthyStr (some cid) = true := by simp [truthyStr, hcidne]
    simp only [h1, h2, Bool.and_self, Bool.not_true, Bool.false_eq_true,
      if_false, Option.getD_some]
    cases hE : getEmrEndpoints (EmrObj.emrStr t) <;> simp [hE, Except.map]
  · intro hfalse
    have hcond : (truthyStr env.envEmrType && truthyStr env.envClientId)
        = false := by
      rcases hfalse with hf | hf <;> simp [hf]
    constructor
    · intro m hm
      simp [getRequiredTokenParameters, hd, hcond, hm]
    · intro m hm
      simp [getRequiredTokenParameters, hd, hcond, hm]

/-- Witness for C3: with a decoder that always fails and both environment
variables set (`cerner` / `env-cid`), the standalone parameters come from
the environment. -/
theorem C3_decode_failure_env_fallback_witness :
    getRequiredTokenParameters badDecodeEnv "abc"
      = (getEmrEndpoints (EmrObj.emrStr "cerner")).map
          (fun eps => { endpoints := eps, clientId := "env-cid" }) :=
  (C3_decode_failure_env_fallback badDecodeEnv "abc"
    (Err.invalidToken "Invalid token specified") (by decide)).1
    "cerner" "env-cid" rfl (by decide) rfl (by decide)

/-- C4: `createDefaultFhirClient` performs the standalone OAuth2
authorization-code exchange exactly when the launch type is STANDALONE
(code from the browser URL, derived endpoints, one token-endpoint POST,
client built at the R4 base); for launch type EMR it returns the
host-provided `FHIR.oauth2.ready()` client with no network exchange, and
for any other launch type it throws. -/
theorem C4_createDefaultFhirClient_launch_dispatch (env : Env) :
    createDefaultFhirClient LAUNCH.EMR env = (env.oauth2Ready, [])
    ∧ createDefaultFhirClient LAUNCH.STANDALONE env
      = buildStandaloneFhirClient env
    ∧ (∀ code p, getCodeFromBrowserUrl env = Except.ok code →
        getRequiredTokenParameters env code = Except.ok p →
        createDefaultFhirClient LAUNCH.STANDALONE env
          = ((getAccessToken env p.endpoints.token code p.clientId).1.map
              (fun tokenResponse =>
                { state :=
                  { serverUrl := p.endpoints.r4
                    clientId := some p.clientId
                    tokenResponse := some tokenResponse } }),
             [{ url := p.endpoints.token
                method := "POST"
                grant_type := "authorization_code"
                code := code
                redirect_uri := env.windowOrigin
                client_id := p.clientId }]))
    ∧ (∀ lt, lt ≠ LAUNCH.EMR → lt ≠ LAUNCH.STANDALONE →
        createDefaultFhirClient lt env
          = (Except.error
              (Err.error "Unsupported provider for standalone launch"),
             [])) := by
  refine ⟨rfl, rfl, ?_, ?_⟩
  · intro code p h1 h2
    simp only [createDefaultFhirClient, buildStandaloneFhirClient, h1, h2,
      getAccessToken]
    by_cases htok : truthyStr (env.fetchJson
        { url := p.endpoints.token
          method := "POST"
          grant_type := "authorization_code"
          code := code
          redirect_uri := env.windowOrigin
          client_id := p.clientId }).access_token = true
    · simp [htok, Except.map]
    · simp [htok, Except.map]
  · intro lt h1 h2
    cases lt with
    | EMR => exact absurd rfl h1
    | STANDALONE => exact absurd rfl h2
    | BACKEND => rfl

/-- Witness for C4: in the demonstration environment the standalone launch
exchanges the browser code at Epic's token endpoint and builds the client
at Epic's R4 base. -/
theorem C4_createDefaultFhirClient_launch_dispatch_witness :
    createDefaultFhirClient LAUNCH.STANDALONE demoEnv
      = ((getAccessToken demoEnv epicEndpoints.token "hh.epicseg.sig"
            "cid-epic").1.map
          (fun tokenResponse =>
            { state :=
              { serverUrl := epicEndpoints.r4
                clientId := some "cid-epic"
                tokenResponse := some tokenResponse } }),
         [{ url := epicEndpoints.token
            method := "POST"
            grant_type := "authorization_code"
            code := "hh.epicseg.sig"
            redirect_uri := "https://app.example.org"
            client_id := "cid-epic" }]) :=
  (C4_createDefaultFhirClient_launch_dispatch demoEnv).2.2.1
    "hh.epicseg.sig" { endpoints := epicEndpoints, clientId := "cid-epic" }
    (by decide) (by decide)

/-- C7: `getAccessToken` issues exactly one POST fetch to the token
endpoint (its trace is the singleton authorization-code request); it
returns the parsed token response when that response carries a truthy
`access_token`, and throws
`Error("Could not find any access token from the oauth endpoint's response")`
without any further request when the response has none. -/
theorem C7_getAccessToken_single_post (env : Env)
    (tokenEndpoint code clientId : String) :
    (getAccessToken env tokenEndpoint code clientId).2
      = [{ url := tokenEndpoint
           method := "POST"
           grant_type := "authorization_code"
           code := code
           redirect_uri := env.windowOrigin
           client_id := clientId }]
    ∧ (∀ s, (env.fetchJson
          { url := tokenEndpoint
            method := "POST"
            grant_type := "authorization_code"
            code := code
            redirect_uri := env.windowOrigin
            client_id := clientId }).access_token = some s → s ≠ "" →
        (getAccessToken env tokenEndpoint code clientId).1
          = Except.ok (env.fetchJson
              { url := tokenEndpoint
                method := "POST"
                grant_type := "authorization_code"
                code := code
                redirect_uri := env.windowOrigin
                client_id := clientId }))
    ∧ ((env.fetchJson
          { url := tokenEndpoint
            method := "POST"
            grant_type := "authorization_code"
            code := code
            redirect_uri := env.windowOrigin
            client_id := clientId }).access_token = Option.none →
        (getAccessToken env tokenEndpoint code clientId).1
          = Except.error (Err.error
              "Could not find any access token from the oauth endpoint's response")) := by
  refine ⟨?_, fun s hs hsne => ?_, fun hnone => ?_⟩
  · simp only [getAccessToken]
    split <;> rfl
  · simp [getAccessToken, truthyStr, hs, hsne]
  · simp [getAccessToken, truthyStr, hnone]

/-- Witness for C7: the demonstration network answers with a nonempty
access token, and the exchange returns that parsed response. -/
theorem C7_getAccessToken_single_post_witness :
    (getAccessToken demoEnv "https://tok.example" "code1" "cid1").1
      = Except.ok (demoFetch
          { url := "https://tok.example"
            method := "POST"
            grant_type := "authorization_code"
            code := "code1"
            redirect_uri := "https://app.example.org"
            client_id := "cid1" }) :=
  (C7_getAccessToken_single_post demoEnv "https://tok.example" "code1"
    "cid1").2.1 "tok123" (by decide) (by decide)

/-- C8: `getCodeFromBrowserUrl` throws
`Error("Could not find any JWT token.")` exactly when the browser URL has
no `code` query parameter, and otherwise returns that parameter's value
unchanged; with the code absent, `createEMRClient(LAUNCH.STANDALONE)`
fails with that error and an empty network trace, i.e. before any
exchange. -/
theorem C8_missing_code_fails_before_network (env : Env) :
    (env.browserCode = Option.none →
      getCodeFromBrowserUrl env
        = Except.error (Err.error "Could not find any JWT token.")
      ∧ createEMRClient LAUNCH.STANDALONE env
        = (Except.error (Err.error "Could not find any JWT token."), []))
    ∧ (∀ c, env.browserCode = some c →
        getCodeFromBrowserUrl env = Except.ok c) := by
  refine ⟨fun h => ⟨?_, ?_⟩, fun c hc => ?_⟩
  · simp [getCodeFromBrowserUrl, h]
  · simp [createEMRClient, createDefaultFhirClient,
      buildStandaloneFhirClient, getCodeFromBrowserUrl, h]
  · simp [getCodeFromBrowserUrl, hc]

/-- Witness for C8: the environment without a `code` parameter fails with
the JWT-token error and an empty trace. -/
theorem C8_missing_code_fails_before_network_witness :
    getCodeFromBrowserUrl noCodeEnv
      = Except.error (Err.error "Could not find any JWT token.")
    ∧ createEMRClient LAUNCH.STANDALONE noCodeEnv
      = (Except.error (Err.error "Could not find any JWT token."), []) :=
  (C8_missing_code_fails_before_network noCodeEnv).1 (by decide)

/-- C9: the JWT is used opaquely and never verified: `codeToJwt` decodes
only the payload segment of the token, so two token strings with the same
header and payload but different (or invalid) signature segments decode to
the same JWT and drive `getRequiredTokenParameters` to the same EMR
endpoints and client id, under any payload decoder. -/
theorem C9_signature_never_verified (env : Env) (h p s1 s2 : String)
    (hh : '.' ∉ h.data) (hp : '.' ∉ p.data) :
    codeToJwt env (h ++ "." ++ p ++ "." ++ s1)
      = codeToJwt env (h ++ "." ++ p ++ "." ++ s2)
    ∧ getRequiredTokenParameters env (h ++ "." ++ p ++ "." ++ s1)
      = getRequiredTokenParameters env (h ++ "." ++ p ++ "." ++ s2) := by
  have key : ∀ s : String,
      codeToJwt env (h ++ "." ++ p ++ "." ++ s)
        = match env.decodeSegment (String.mk p.data) with
          | Option.none =>
            Except.error (Err.invalidToken "Invalid token specified")
          | some j => Except.ok j := by
    intro s
    unfold codeToJwt
    rw [show (h ++ "." ++ p ++ "." ++ s).toList
          = h.data ++ '.' :: (p.data ++ '.' :: s.data)
        from data_code_concat h p s]
    rw [splitOnDot_segment_one h.data p.data s.data hh hp]
  have hjwt : codeToJwt env (h ++ "." ++ p ++ "." ++ s1)
      = codeToJwt env (h ++ "." ++ p ++ "." ++ s2) :=
    (key s1).trans (key s2).symm
  exact ⟨hjwt, by simp only [getRequiredTokenParameters, hjwt]⟩

/-- Witness for C9: with the demonstration decoder, the same header and
payload with two different signatures decode identically. -/
theorem C9_signature_never_verified_witness :
    codeToJwt demoEnv ("hh" ++ "." ++ "epicseg" ++ "." ++ "sig1")
      = codeToJwt demoEnv ("hh" ++ "." ++ "epicseg" ++ "." ++ "sig2") :=
  (C9_signature_never_verified demoEnv "hh" "epicseg" "sig1" "sig2"
    (by decide) (by decide)).1

/-- C10: `ClientFactory` keeps no persistent state: the factory type has a
single (fieldless) value, every operation returns the factory unchanged,
and in any sequence of calls the result at each position depends only on
that call's arguments and environment, not on the earlier calls. -/
theorem C10_factory_keeps_no_state :
    (∀ f g : ClientFactory, f = g)
    ∧ (∀ (f : ClientFactory) (c : FactoryCall), (execCall f c).2 = f)
    ∧ (∀ (f : ClientFactory) (calls : List FactoryCall) (i : Nat),
        (execCalls f calls)[i]?
          = calls[i]?.map (fun c => (execCall f c).1)) := by
  have hsnd : ∀ (f : ClientFactory) (c : FactoryCall), (execCall f c).2 = f := by
    intro f c
    cases c <;> rfl
  refine ⟨fun f g => by cases f; cases g; rfl, hsnd, ?_⟩
  intro f calls
  induction calls with
  | nil => intro i; simp [execCalls]
  | cons c rest ih =>
    intro i
    cases i with
    | zero => simp [execCalls]
    | succ n =>
      simp only [execCalls, hsnd f c, List.getElem?_cons_succ]
      exact ih n
